import Mathlib

/-!
Verification of the nsp-visionary link-preview bot against its
natural-language specification.  The Python sources are shallowly embedded:
text is modelled as `List Char` (Python `str` is a sequence of characters),
integers as `Nat`/`Int`, fallible operations as `Except`/`Option`, and the
stateful browser client as explicit state passing.  The `uuid.uuid3` digest
is kept abstract as a function parameter `digest : Str → Str`, since the
claims only depend on it being a pure function of its input.
-/

namespace Visionary

/-- Python strings are modelled as lists of characters. -/
abbrev Str := List Char

/-! ## Rate limiter (src/visionary/util.py, class RateLimiter)

Time is modelled by natural-number instants handed to `tick` (the source
reads `time.monotonic()`; the refill computation `floor(elapsed /
refresh_time)` becomes natural division). -/

/-- State of `RateLimiter`: `max` is `max_tokens`, `value` the current token
count, `refreshTime` the `refresh_time` parameter and `lastUpdated` the
instant of the last successful acquisition. -/
structure RL where
  max : Nat
  value : Nat
  refreshTime : Nat
  lastUpdated : Nat
  deriving Repr, DecidableEq

/-- Embedding of `RateLimiter.__init__(max_tokens, refresh_time)` called at
instant `t0`: the bucket starts full. -/
def mkRL (maxTokens refreshTime t0 : Nat) : RL :=
  { max := maxTokens, value := maxTokens, refreshTime := refreshTime, lastUpdated := t0 }

/-- Embedding of `RateLimiter.tick` evaluated at instant `now`:
`refill = floor((now - last_updated) / refresh_time)`;
`value = min(value + refill, max)`; if `value < 1` the call fails and
`last_updated` is kept, otherwise one token is consumed and `last_updated`
is set to `now`. -/
def tick (s : RL) (now : Nat) : Bool × RL :=
  let refill := (now - s.lastUpdated) / s.refreshTime
  let v := min (s.value + refill) s.max
  if v < 1 then
    (false, { s with value := v })
  else
    (true, { s with value := v - 1, lastUpdated := now })

/-- Results of `k` consecutive `tick` calls, all issued at instant `t`. -/
def ticksAt (s : RL) (t : Nat) : Nat → List Bool
  | 0 => []
  | k + 1 =>
    let r := tick s t
    r.1 :: ticksAt r.2 t k

/-- Modelled from the spec: a rate limiter whose refill is computed *at a
rate of `capacity` tokens per `refill_interval` seconds* (the wording of the
claim), i.e. `refill = floor(capacity * elapsed / refresh_time)`.  Used only
to compare the claimed refill rate against the source. -/
def tickSpecRate (s : RL) (now : Nat) : Bool × RL :=
  let refill := s.max * (now - s.lastUpdated) / s.refreshTime
  let v := min (s.value + refill) s.max
  if v < 1 then
    (false, { s with value := v })
  else
    (true, { s with value := v - 1, lastUpdated := now })

/-! ## Link hashing (src/visionary/util.py, hash_link) -/

/-- Characters kept by `re.sub('\W+', '', uri)`: the regex word characters
(letters, digits and underscore; the sources only ever hash ASCII
host+path strings). -/
def isWordChar (c : Char) : Bool := c.isAlphanum || c == '_'

/-- The preprocessing `hash_link` applies before digesting: delete all
non-word characters (`re.sub('\W+', '', uri)`) and lowercase
(`uri.lower()`). -/
def normalizeUri (s : Str) : Str := (s.filter isWordChar).map Char.toLower

/-- Embedding of `hash_link` on a non-None argument: the UUID3 digest
(abstract pure function `digest`) of the normalized input. -/
def hashLinkStr (digest : Str → Str) (s : Str) : Str := digest (normalizeUri s)

/-- Embedding of `hash_link` (src/visionary/util.py lines 39-51): `None`
maps to `None`, otherwise digest the normalized string. -/
def hashLink (digest : Str → Str) : Option Str → Option Str
  | none => none
  | some s => some (hashLinkStr digest s)

/-- Snapshot file path built in `process_link` (line 121):
`image_path + hash_link(endpoint.host + endpoint.pathstr) + '.png'`. -/
def snapshotPath (digest : Str → Str) (imagePath hostPath : Str) : Str :=
  imagePath ++ hashLinkStr digest hostPath ++ (".png").toList

/-! ## Link extraction (src/visionary/util.py, find_link_br) -/

/-- Python `str.strip()`: drop whitespace from both ends. -/
def pyStrip (s : Str) : Str :=
  ((s.dropWhile Char.isWhitespace).reverse.dropWhile Char.isWhitespace).reverse

/-- The scheme matched by the regex `https?://` anchored at position 0 (the
pattern in `find_link_br` starts with `^` and `re.search` is called without
`re.MULTILINE`, so it can only match at the start of the text). -/
def linkScheme (t : Str) : Option Str :=
  if ("https://").toList.isPrefixOf t then some ("https://").toList
  else if ("http://").toList.isPrefixOf t then some ("http://").toList
  else none

/-- Embedding of `find_link_br`: match `^https?://[^<]+<br>`, strip the
trailing `<br>` (`match.group(0)[:-4]`) and surrounding whitespace
(`.strip()`).  The body `[^<]+` is the maximal nonempty run of characters
other than a left angle bracket after the scheme, and the text must continue
with `<br>` immediately after that run. -/
def findLinkBr (t : Str) : Option Str :=
  match linkScheme t with
  | none => none
  | some p =>
    let rest := t.drop p.length
    let body := rest.takeWhile (· ≠ '<')
    if body ≠ [] ∧ ("<br>").toList.isPrefixOf (rest.drop body.length) then
      some (pyStrip (p ++ body))
    else
      none

/-- Modelled from the spec: the claim asks for the first well-formed link
terminated by a line break *occurring anywhere in the text*; this scans every
start offset left to right (ordinary unanchored search semantics). -/
def specFindLinkAnywhere (t : Str) : Option Str :=
  (List.range (t.length + 1)).findSome? (fun i => findLinkBr (t.drop i))

/-- Action the orchestrator takes for one incoming message
(src/visionary/server.py lines 80-83): reply to the extracted link, or
ignore the message when no link is found. -/
inductive ServerAction where
  | reply (link : Str)
  | ignore
  deriving Repr, DecidableEq

/-- Embedding of the link-extraction step of `VisionServer._process`:
`link_string = find_link_br(message); if not link_string: continue`. -/
def serverStep (msg : Str) : ServerAction :=
  match findLinkBr msg with
  | none => ServerAction.ignore
  | some l => ServerAction.reply l

/-! ## Chat API handle (src/visionary/vkapi.py) -/

/-- Peer-id offset for chats (src/visionary/config.py line 8). -/
def VKAPI_CHAT_OFFSET : Int := 2000000000

/-- Embedding of `VKAPIHandle._api_get_chat_id` after the dialog cache has
been populated: the cache is the list of `(title, chat_id)` pairs from
`messages.getDialogs()['items']`; the first exact title match yields
`VKAPI_CHAT_OFFSET + chat_id`, otherwise `None` is returned (the function
itself never raises). -/
def apiGetChatId (cache : List (Str × Int)) (name : Str) : Option Int :=
  match cache.find? (fun p => p.1 == name) with
  | some p => some (VKAPI_CHAT_OFFSET + p.2)
  | none => none

/-- Embedding of the name-resolution portion of `VKAPIHandle.register`
(src/visionary/vkapi.py lines 44-54): resolve the listen name and raise
`ValueError('No chat found')` when it has no match; then resolve the reply
name (defaulting to the listen peer when unset) with **no** check of the
result.  Returns the pair `(listen peer id, optional reply peer id)`. -/
def register (cache : List (Str × Int)) (listenName : Str) (replyName : Option Str) :
    Except String (Int × Option Int) :=
  match apiGetChatId cache listenName with
  | none => Except.error ("No chat found")
  | some l =>
    match replyName with
    | none => Except.ok (l, some l)
    | some rn => Except.ok (l, apiGetChatId cache rn)

/-- One record of a long-poll update batch; the source indexes the raw
update array at 0 (event type), 3 (peer id) and 6 (message text). -/
structure LPUpdate where
  etype : Nat
  peer : Int
  text : Str
  deriving Repr, DecidableEq

/-- One long-poll response: the new cursor `ts` and the update batch. -/
structure LPResponse where
  ts : Int
  updates : List LPUpdate
  deriving Repr, DecidableEq

/-- Texts yielded from one accepted batch: updates with event type 4 that
are addressed to the listen peer, in batch order
(`update[0] == 4 and update[3] == self._listen_to`, yield `update[6]`). -/
def batchTexts (listen : Int) (r : LPResponse) : List Str :=
  (r.updates.filter (fun u => u.etype == 4 && u.peer == listen)).map LPUpdate.text

/-- Embedding of `VKAPIHandle.wait_for_messages` consuming a finite prefix
of long-poll responses: starting from cursor `c`, a response whose `ts` is
not strictly greater than the cursor is discarded entirely; otherwise the
cursor advances to `ts` and the batch texts are yielded.  Returns the final
cursor and the yielded texts in order. -/
def waitForMessages (listen : Int) : Int → List LPResponse → Int × List Str
  | c, [] => (c, [])
  | c, r :: rs =>
    if r.ts ≤ c then waitForMessages listen c rs
    else
      let rest := waitForMessages listen r.ts rs
      (rest.1, batchTexts listen r ++ rest.2)

/-! ## Redirect chain construction (src/visionary/webclient_puppet.py)

The response listener `_handle_response` appends the host of each observed
`Location` header to a deque exactly once per distinct host in first-seen
order; `process_link` (lines 127-141) then normalizes the deque boundaries
and renders the chain.  Deques are modelled as lists whose head is the left
end. -/

/-- Python substring membership `needle in hay`. -/
def substrOf (needle hay : Str) : Bool :=
  (List.range (hay.length + 1)).any (fun i => needle.isPrefixOf (hay.drop i))

/-- Embedding of the queue normalization in `process_link` lines 127-133:
if the original host occurs in the queue drop the leftmost element, then
prepend original host+path; if the endpoint host occurs in the resulting
queue drop the rightmost element, then append endpoint host+path. -/
def normalizeQueue (origHost origPath endHost endPath : Str) (q : List Str) : List Str :=
  let q1 := if q.contains origHost then q.tail else q
  let q2 := (origHost ++ origPath) :: q1
  let q3 := if q2.contains endHost then q2.dropLast else q2
  q3 ++ [endHost ++ endPath]

/-- Embedding of the rendering loop in `process_link` lines 135-141: walk
the queue left to right; an element that is a substring of the endpoint URL
is appended and rendering stops, otherwise the element is appended followed
by an arrow separator. -/
def renderChain (url : Str) : List Str → Str
  | [] => []
  | item :: rest =>
    if substrOf item url then item
    else item ++ (" -> ").toList ++ renderChain url rest

/-- The complete redirect-chain construction of `process_link`: normalize
the observed-host queue, then render against the endpoint URL. -/
def buildChain (url origHost origPath endHost endPath : Str) (q : List Str) : Str :=
  renderChain url (normalizeQueue origHost origPath endHost endPath q)

/-! ## Browser client (src/visionary/webclient_puppet.py, class PuppetClient) -/

/-- The file extensions treated as browsable pages
(src/visionary/config.py line 20, `WEBCLIENT_ALLOWED_FILES`). -/
def WEBCLIENT_ALLOWED_FILES : List Str := [(".html").toList, (".php").toList]

/-- Embedding of furl `path.isfile`: the path has a final non-empty segment,
i.e. it is non-empty and does not end with a slash. -/
def pathIsFile (p : Str) : Bool := !p.isEmpty && p.getLast? != some '/'

/-- Embedding of `link.pathstr[last_dot_pos:]` guarded by
`link.pathstr.rindex('.')`: the suffix of the path from its last dot
(anywhere in the path), or `none` when the path has no dot
(`ValueError` branch, which falls through to navigation). -/
def extSlice (p : Str) : Option Str :=
  if p.contains '.' then some ('.' :: (p.reverse.takeWhile (· ≠ '.')).reverse)
  else none

/-- Embedding of `re.sub('[^A-Za-z.]+', '', ...)`: keep only ASCII letters
and dots. -/
def stripExt (s : Str) : Str := s.filter (fun c => c.isAlpha || c == '.')

/-- The condition under which `process_link` (lines 99-112) takes the
file-classification branch instead of navigating: the path is file-like,
contains a dot, and the stripped extension from the last dot is not in
`WEBCLIENT_ALLOWED_FILES`. -/
def classifySentinel (p : Str) : Bool :=
  pathIsFile p &&
    match extSlice p with
    | none => false
    | some sl => !(WEBCLIENT_ALLOWED_FILES.contains (stripExt sl))

/-- Field names of the `ResolvedLink` NamedTuple
(src/visionary/webclient_puppet.py lines 25-31); all five are required by
the constructor (none has a default). -/
def resolvedLinkFields : List String :=
  ["start_location", "location", "redirect_path", "snapshot", "time_taken"]

/-- Keyword arguments supplied to `ResolvedLink(...)` in the
file-classification branch of `process_link` (lines 107-112). -/
def sentinelKwargs : List String :=
  ["start_location", "location", "redirect_path", "time_taken"]

/-- Python NamedTuple construction succeeds exactly when every required
field is supplied; the sentinel construction omits `snapshot` and therefore
raises `TypeError` at run time. -/
def sentinelConstructionOk : Bool :=
  resolvedLinkFields.all (fun f => sentinelKwargs.contains f)

/-- Embedding of the `ResolvedLink` NamedTuple. -/
structure ResolvedLink where
  startLocation : Str
  location : Str
  redirectPath : Str
  snapshot : Option Str
  timeTaken : Int
  deriving Repr, DecidableEq

/-- Mutable attributes of `PuppetClient` relevant to the claims:
`fails` is `_fails`; `tabCounter` is `_open_tab_count` (initialized to 0
and never modified anywhere in the source); `openTabs` counts the tabs
actually open in the browser process (`newPage` opens one, `tab.close()`
closes one). -/
structure PupState where
  fails : Nat
  tabCounter : Nat
  openTabs : Nat
  deriving Repr, DecidableEq

/-- Environment of one `process_link` call: per-attempt outcomes of the
`newPage` allocation (`tabOk i` means attempt `i` did not time out) and of
`tab.goto` (`navOk i` means attempt `i` did not raise), the endpoint the
browser finally lands on, the full endpoint URL string (`tab.url`), the
distinct `Location` hosts accumulated by `_handle_response` in first-seen
order, and the measured elapsed seconds. -/
structure NavEnv where
  tabOk : Nat → Bool
  navOk : Nat → Bool
  endpointHost : Str
  endpointPath : Str
  endpointUrl : Str
  locations : List Str
  elapsed : Int

/-- Outcome of one `process_link` call. -/
inductive POutcome where
  /-- The file-classification branch raises `TypeError` because the
  sentinel `ResolvedLink` construction omits the required `snapshot`
  field. -/
  | typeError
  /-- The helper `_get_tab` found `_open_tab_count >= _max_tabs` and entered the wait
  loop, whose body calls `aio.sleep(3)` without awaiting it: the condition
  can never change and the loop never terminates. -/
  | hang
  /-- All three `newPage` attempts timed out; `tenacity.RetryError`
  propagates out of `process_link`, which has no handler around
  `_get_tab`. -/
  | tabRetryError
  /-- All three `tab.goto` attempts failed; `process_link` returns
  `None`. -/
  | unresolved
  /-- Navigation succeeded: `process_link` returns a `ResolvedLink`. -/
  | ok (r : ResolvedLink)
  deriving Repr, DecidableEq

/-- Whether `_get_tab` succeeds within its three tenacity attempts. -/
def tabAcquired (env : NavEnv) : Bool := env.tabOk 0 || env.tabOk 1 || env.tabOk 2

/-- Number of `newPage` attempts `_get_tab` issues under
`tenacity.stop_after_attempt(3)`. -/
def tabAttempts (env : NavEnv) : Nat :=
  if env.tabOk 0 then 1 else if env.tabOk 1 then 2 else 3

/-- Whether `_navigate` succeeds within its three tenacity attempts. -/
def navSucceeds (env : NavEnv) : Bool := env.navOk 0 || env.navOk 1 || env.navOk 2

/-- Number of `tab.goto` attempts `_navigate` issues under
`tenacity.stop_after_attempt(3)`. -/
def navAttempts (env : NavEnv) : Nat :=
  if env.navOk 0 then 1 else if env.navOk 1 then 2 else 3

/-- Embedding of `PuppetClient.process_link` (lines 94-149) for the link
`origHost ++ origPath`:
1. classification — the sentinel branch raises `TypeError` (missing
   `snapshot` argument) before any browser interaction;
2. tab acquisition — with `_open_tab_count` at or above `_max_tabs` the
   wait loop never terminates; otherwise three `newPage` attempts, whose
   exhaustion lets `tenacity.RetryError` escape; success opens a tab;
3. navigation — three `tab.goto` attempts; exhaustion increments `_fails`
   and returns `None` without closing the tab; success resets `_fails`;
4. snapshot, `tab.close()`, redirect-chain construction, and the populated
   `ResolvedLink`. -/
def processLink (digest : Str → Str) (imagePath : Str) (maxTabs : Nat) (s : PupState)
    (origHost origPath : Str) (env : NavEnv) : POutcome × PupState :=
  if classifySentinel origPath then
    (POutcome.typeError, s)
  else if maxTabs ≤ s.tabCounter then
    (POutcome.hang, s)
  else if !tabAcquired env then
    (POutcome.tabRetryError, s)
  else
    let sTab := { s with openTabs := s.openTabs + 1 }
    if !navSucceeds env then
      (POutcome.unresolved, { sTab with fails := sTab.fails + 1 })
    else
      let sNav := { sTab with fails := 0 }
      let endpoint := env.endpointHost ++ env.endpointPath
      let snap := snapshotPath digest imagePath endpoint
      let sClosed := { sNav with openTabs := sNav.openTabs - 1 }
      (POutcome.ok
        { startLocation := origHost ++ origPath
          location := endpoint
          redirectPath :=
            buildChain env.endpointUrl origHost origPath env.endpointHost env.endpointPath
              env.locations
          snapshot := some snap
          timeTaken := env.elapsed },
        sClosed)

/-- Modelled from the spec: the failure bookkeeping the claim describes for
`process_link` — do not double-count when the same host failed most
recently, otherwise increment; at 4 consecutive failures restart the pool
and reset the counter to 0.  Used only to compare the claimed dynamics
against the source. -/
def specRecordFailure (fails : Nat) (lastFailHost : Option Str) (host : Str) :
    Nat × Option Str × Bool :=
  if lastFailHost == some host then (fails, lastFailHost, false)
  else
    let f := fails + 1
    if 4 ≤ f then (0, some host, true) else (f, some host, false)

/-- An environment whose tab and navigation attempts all succeed
immediately. -/
def allOkEnv : NavEnv :=
  { tabOk := fun _ => true, navOk := fun _ => true, endpointHost := [],
    endpointPath := [], endpointUrl := [], locations := [], elapsed := 0 }

/-- An environment whose navigation attempts all fail (tab acquisition
succeeds). -/
def navFailEnv : NavEnv :=
  { allOkEnv with navOk := fun _ => false }

/-- An environment whose tab-acquisition attempts all time out. -/
def tabFailEnv : NavEnv :=
  { allOkEnv with tabOk := fun _ => false }

/-- The identity digest, used to instantiate the abstract UUID3 digest in
concrete counterexamples and witnesses. -/
def idDigest : Str → Str := fun s => s

/-- The `PuppetClient` attribute state at process start: `_fails = 0`,
`_open_tab_count = 0`, no open tabs. -/
def initPup : PupState := { fails := 0, tabCounter := 0, openTabs := 0 }

/-- Discriminator for the successful `process_link` outcome. -/
def isOkOutcome : POutcome → Bool
  | POutcome.ok _ => true
  | _ => false

/-! ## Helper lemmas -/

/-- Ticks issued at the very instant of the last refill see a zero refill,
so from a bucket holding `v ≤ M` tokens the first `v` calls succeed and all
later ones fail. -/
lemma ticksAt_const_instant (k : Nat) : ∀ (M v T l : Nat), v ≤ M →
    ticksAt { max := M, value := v, refreshTime := T, lastUpdated := l } l k =
      List.replicate (min v k) true ++ List.replicate (k - v) false := by
  induction k with
  | zero => intro M v T l _; simp [ticksAt]
  | succ k ih =>
    intro M v T l hv
    match v with
    | 0 =>
      have : tick { max := M, value := 0, refreshTime := T, lastUpdated := l } l =
          (false, { max := M, value := 0, refreshTime := T, lastUpdated := l }) := by
        simp [tick]
      simp [ticksAt, this, ih M 0 T l (Nat.zero_le M), List.replicate_succ]
    | w + 1 =>
      have hstep : tick { max := M, value := w + 1, refreshTime := T, lastUpdated := l } l =
          (true, { max := M, value := w, refreshTime := T, lastUpdated := l }) := by
        simp only [tick, Nat.sub_self, Nat.zero_div, Nat.add_zero]
        rw [min_eq_left hv]
        simp
      have ihw := ih M w T l (by omega)
      have hmin : (w + 1) ⊓ (k + 1) = (w ⊓ k) + 1 := by omega
      simp [ticksAt, hstep, ihw, hmin, List.replicate_succ]

/-- The long-poll cursor never decreases. -/
lemma waitForMessages_cursor_mono (listen : Int) :
    ∀ (rs : List LPResponse) (c : Int), c ≤ (waitForMessages listen c rs).1 := by
  intro rs
  induction rs with
  | nil => intro c; simp [waitForMessages]
  | cons r rs ih =>
    intro c
    by_cases h : r.ts ≤ c
    · simpa [waitForMessages, h] using ih c
    · have := ih r.ts
      simp only [waitForMessages, if_neg h]
      omega

/-! ## Claims C3 and C4 -/

/-- C3 (corrected part): the claim states tokens are refilled at a rate of
`capacity` tokens per `refill_interval` seconds.  For a bucket of capacity
2 with interval 1 that is emptied at instant 0, the claimed rate would
replenish two tokens by instant 1 (the spec-worded model `tickSpecRate`
grants two consecutive acquisitions), but the source refills at one token
per interval, so the second acquisition at instant 1 fails. -/
theorem C3_counterexample :
    (tick (tick (tick (tick (mkRL 2 1 0) 0).2 0).2 1).2 1).1 = false ∧
    (tick (tick (tick (mkRL 2 1 0) 0).2 0).2 1).1 = true ∧
    (tickSpecRate (tickSpecRate (tickSpecRate (tickSpecRate (mkRL 2 1 0) 0).2 0).2 1).2 1).1
      = true := by
  decide

/-- C3 (amended): tokens are refilled lazily on acquisition at a rate of
one token per `refill_interval` seconds (`floor(elapsed / refill_interval)`),
capped at `capacity`.  Concretely: starting full, `C` consecutive `tick`
calls at the same instant succeed and the next fails; from an empty bucket,
once at least one interval (and less than two) has elapsed, exactly one
token is available; the token count never exceeds the capacity. -/
theorem C3_rate_limiter (C T t0 l t now : Nat) (s : RL) :
    (ticksAt (mkRL C T t0) t0 (C + 1) = List.replicate C true ++ [false]) ∧
    (1 ≤ C → 1 ≤ T → l + T ≤ t → t < l + 2 * T →
      tick { max := C, value := 0, refreshTime := T, lastUpdated := l } t =
        (true, { max := C, value := 0, refreshTime := T, lastUpdated := t }) ∧
      (tick { max := C, value := 0, refreshTime := T, lastUpdated := t } t).1 = false) ∧
    (s.value ≤ s.max → ((tick s now).2).value ≤ s.max) := by
  refine ⟨?_, ?_, ?_⟩
  · have h := ticksAt_const_instant (C + 1) C C T t0 (le_refl C)
    have hmin : min C (C + 1) = C := by omega
    have hsub : C + 1 - C = 1 := by omega
    simpa [mkRL, hmin, hsub] using h
  · intro hC hT hle hlt
    have hdiv : (t - l) / T = 1 := by
      have hlt2 : (t - l) / T < 2 := by
        rw [Nat.div_lt_iff_lt_mul (by omega : 0 < T)]
        omega
      have hge1 : 1 ≤ (t - l) / T := by
        rw [Nat.le_div_iff_mul_le (by omega : 0 < T)]
        omega
      omega
    constructor
    · simp only [tick, hdiv]
      have hmin : (0 + 1) ⊓ C = 1 := by omega
      rw [hmin]
      simp
    · simp [tick, Nat.sub_self]
  · intro hv
    simp only [tick]
    generalize (now - s.lastUpdated) / s.refreshTime = d
    split <;> simp

/-- C3 witness: the amended theorem instantiated at capacity 3, interval 1:
three immediate acquisitions succeed, the fourth fails, and after one
interval exactly one token is available again. -/
theorem C3_rate_limiter_witness :
    (ticksAt (mkRL 3 1 0) 0 4 = [true, true, true, false]) ∧
    (tick { max := 3, value := 0, refreshTime := 1, lastUpdated := 0 } 1 =
      (true, { max := 3, value := 0, refreshTime := 1, lastUpdated := 1 })) ∧
    (tick { max := 3, value := 0, refreshTime := 1, lastUpdated := 1 } 1).1 = false := by
  have h := C3_rate_limiter 3 1 0 0 1 0 (mkRL 3 1 0)
  refine ⟨by simpa using h.1, ?_, ?_⟩
  · exact (h.2.1 (by decide) (by decide) (by decide) (by decide)).1
  · exact (h.2.1 (by decide) (by decide) (by decide) (by decide)).2

/-- C4 (confirmed): a long-poll response whose cursor is not strictly
greater than the last-seen cursor is discarded entirely; otherwise the
cursor advances to the response cursor and the texts of the type-4 updates
addressed to the listen peer are yielded in batch order before the rest of
the stream; and the cursor is monotonically non-decreasing. -/
theorem C4_cursor_dedup (listen c : Int) (r : LPResponse) (rs : List LPResponse) :
    (r.ts ≤ c → waitForMessages listen c (r :: rs) = waitForMessages listen c rs) ∧
    (c < r.ts → waitForMessages listen c (r :: rs) =
      ((waitForMessages listen r.ts rs).1,
        batchTexts listen r ++ (waitForMessages listen r.ts rs).2)) ∧
    c ≤ (waitForMessages listen c rs).1 := by
  refine ⟨?_, ?_, waitForMessages_cursor_mono listen rs c⟩
  · intro h
    simp [waitForMessages, h]
  · intro h
    simp [waitForMessages, not_le.mpr h]

/-- C4 witness: with listen peer 9 and cursor 5, a response batch with
cursor 5 is discarded ([5, 5] yields only the first batch), while a batch
with cursor 7 advances the cursor and yields its message ([5, 7] yields
both in order). -/
theorem C4_cursor_dedup_witness :
    waitForMessages 9 5 [⟨5, [⟨4, 9, ("dup").toList⟩]⟩] = (5, []) ∧
    waitForMessages 9 5 [⟨7, [⟨4, 9, ("m2").toList⟩]⟩] = (7, [("m2").toList]) := by
  constructor
  · rw [(C4_cursor_dedup 9 5 ⟨5, [⟨4, 9, ("dup").toList⟩]⟩ []).1 (by decide)]
    rfl
  · rw [(C4_cursor_dedup 9 5 ⟨7, [⟨4, 9, ("m2").toList⟩]⟩ []).2.1 (by decide)]
    rfl

/-! ## Claims C9 and C10 -/

/-- C9 (code bug): with a dialog directory containing only the listen chat,
`register` for a distinct unmatched reply chat name completes successfully
and leaves the reply peer id null — no `ValueError` is raised, although the
docstrings of `register` and `_api_get_chat_id` both promise one for an
unmatched name; an unmatched listen name does raise. -/
theorem C9_register_reply_unchecked :
    register [(("listen").toList, 1)] ("listen").toList (some (("other").toList)) =
      Except.ok (2000000001, none) ∧
    register [(("listen").toList, 1)] ("other").toList none =
      Except.error ("No chat found") := by
  constructor <;> rfl

/-- C10 (confirmed): `hash_link` digests only the lowercased word-character
content of its argument, so any two strings that agree after deleting
non-word characters and lowercasing receive the same hash and hence the
same snapshot file path; `hash_link(None)` is `None`. -/
theorem C10_hash_normalization (digest : Str → Str) (imagePath u v : Str) :
    (normalizeUri u = normalizeUri v →
      hashLink digest (some u) = hashLink digest (some v) ∧
      snapshotPath digest imagePath u = snapshotPath digest imagePath v) ∧
    hashLink digest none = none := by
  refine ⟨fun h => ?_, rfl⟩
  simp [hashLink, hashLinkStr, snapshotPath, h]

/-- C10 witness: the host+paths `A.b/c` and `ab-c`, which differ only in
case and in dot, slash and dash placement, hash identically and are
assigned the same snapshot path. -/
theorem C10_hash_normalization_witness :
    hashLink idDigest (some (("A.b/c").toList)) = hashLink idDigest (some (("ab-c").toList)) ∧
    snapshotPath idDigest ("img/").toList (("A.b/c").toList) =
      snapshotPath idDigest ("img/").toList (("ab-c").toList) ∧
    hashLink idDigest none = none := by
  have h := C10_hash_normalization idDigest ("img/").toList (("A.b/c").toList) (("ab-c").toList)
  exact ⟨(h.1 (by decide)).1, (h.1 (by decide)).2, h.2⟩

/-! ## Claims C1, C2, C5 and C6 (process_link) -/

/-- One `process_link` call whose navigation attempts all fail, returning
the updated client state. -/
def navFailStep (s : PupState) (host path : Str) : PupState :=
  (processLink idDigest [] 5 s host path navFailEnv).2

/-- C1 (counterexample): at `http://x.com/report.pdf` the classification
branch is taken but the call raises `TypeError` — the sentinel
`ResolvedLink` construction omits the required `snapshot` field — instead
of returning the claimed sentinel record; a path whose extension has more
than 15 letters and a path whose dot lies before the final segment also
take the crashing branch instead of proceeding to navigation (the code has
no 15-character cap and searches the last dot anywhere in the path). -/
theorem C1_counterexample :
    processLink idDigest [] 5 initPup ("x.com").toList ("/report.pdf").toList allOkEnv =
      (POutcome.typeError, initPup) ∧
    isOkOutcome (processLink idDigest [] 5 initPup ("x.com").toList
      ("/report.pdf").toList allOkEnv).1 = false ∧
    (processLink idDigest [] 5 initPup ("x.com").toList
      ("/file.abcdefghijklmnopqrst").toList allOkEnv).1 = POutcome.typeError ∧
    (processLink idDigest [] 5 initPup ("x.com").toList
      ("/dir.v2/file").toList allOkEnv).1 = POutcome.typeError ∧
    sentinelConstructionOk = false := by
  decide

/-- C1 (amended): whenever the path is file-like (non-empty, not ending in
a slash), contains a dot, and the letters-and-dots content of its suffix
from the last dot is not `.html` or `.php`, `process_link` raises
`TypeError` (the sentinel `ResolvedLink` construction omits the required
`snapshot` field) with no browser interaction and no state change; every
other URL proceeds past classification and never raises that error. -/
theorem C1_file_classification (digest : Str → Str) (imagePath : Str) (maxTabs : Nat)
    (s : PupState) (host path : Str) (env : NavEnv) :
    (classifySentinel path = true →
      processLink digest imagePath maxTabs s host path env = (POutcome.typeError, s) ∧
      sentinelConstructionOk = false) ∧
    (classifySentinel path = false →
      (processLink digest imagePath maxTabs s host path env).1 ≠ POutcome.typeError) := by
  constructor
  · intro h
    exact ⟨by simp [processLink, h], by decide⟩
  · intro h
    simp only [processLink, h]
    split
    · simp_all
    · split
      · simp
      · split
        · simp
        · split
          · simp
          · simp

/-- C1 witness: `http://x.com/report.pdf` raises the `TypeError`, while
`http://x.com/page.html` (allowed extension) and `http://x.com/` (no
extension) proceed past classification. -/
theorem C1_file_classification_witness :
    processLink idDigest [] 5 initPup ("x.com").toList ("/report.pdf").toList allOkEnv =
      (POutcome.typeError, initPup) ∧
    (processLink idDigest [] 5 initPup ("x.com").toList ("/page.html").toList allOkEnv).1 ≠
      POutcome.typeError ∧
    (processLink idDigest [] 5 initPup ("x.com").toList ("/").toList allOkEnv).1 ≠
      POutcome.typeError := by
  refine ⟨((C1_file_classification idDigest [] 5 initPup ("x.com").toList
      ("/report.pdf").toList allOkEnv).1 (by decide)).1, ?_, ?_⟩
  · exact (C1_file_classification idDigest [] 5 initPup ("x.com").toList
      ("/page.html").toList allOkEnv).2 (by decide)
  · exact (C1_file_classification idDigest [] 5 initPup ("x.com").toList
      ("/").toList allOkEnv).2 (by decide)

/-- C2 (counterexample): two exhausted navigations against the same host
increment `_fails` twice — the source keeps no record of the failing host,
so the claimed same-host deduplication (spec model `specRecordFailure`,
which leaves the counter at 1) does not happen; and after four consecutive
exhausted navigations `_fails` is 4 and stays 4 — no restart exists and the
counter is never reset, whereas the claimed dynamics reset it to 0 with a
restart. -/
theorem C2_counterexample :
    (navFailStep (navFailStep initPup ("a.com").toList ("/x").toList)
      ("a.com").toList ("/x").toList).fails = 2 ∧
    specRecordFailure 1 (some (("a.com").toList)) ("a.com").toList =
      (1, some (("a.com").toList), false) ∧
    (navFailStep (navFailStep (navFailStep (navFailStep initPup
      ("a.com").toList ("/x").toList) ("b.com").toList ("/x").toList)
      ("c.com").toList ("/x").toList) ("d.com").toList ("/x").toList).fails = 4 ∧
    specRecordFailure 3 (some (("c.com").toList)) ("d.com").toList =
      (0, some (("d.com").toList), true) := by
  decide

/-- C2 (amended): navigation is retried up to 3 times; on exhausting the
retries `process_link` returns null and increments the consecutive-failure
counter unconditionally (the failing host is not recorded, so equal hosts
are counted again); a successful navigation resets the counter to zero; the
counter is never compared against any threshold — `PuppetClient` has no
restart operation and no pool state machine, so no restart is ever
triggered. -/
theorem C2_navigation_failures (digest : Str → Str) (imagePath : Str) (maxTabs : Nat)
    (s : PupState) (host path : Str) (env : NavEnv)
    (hsent : classifySentinel path = false) (hcap : s.tabCounter < maxTabs)
    (htab : tabAcquired env = true) :
    (navSucceeds env = false →
      processLink digest imagePath maxTabs s host path env =
        (POutcome.unresolved, { s with openTabs := s.openTabs + 1, fails := s.fails + 1 })) ∧
    (navSucceeds env = true →
      ((processLink digest imagePath maxTabs s host path env).2).fails = 0) ∧
    navAttempts env ≤ 3 := by
  refine ⟨?_, ?_, ?_⟩
  · intro hnav
    simp [processLink, hsent, Nat.not_le.mpr hcap, htab, hnav]
  · intro hnav
    simp [processLink, hsent, Nat.not_le.mpr hcap, htab, hnav]
  · by_cases h0 : env.navOk 0 <;> by_cases h1 : env.navOk 1 <;>
      simp [navAttempts, h0, h1]

/-- C2 witness: with tab allocation succeeding and all three navigation
attempts failing, `process_link` from a fresh client returns the null
outcome with the failure counter at 1; with navigation succeeding the
counter is reset to 0; and at most 3 attempts are issued. -/
theorem C2_navigation_failures_witness :
    processLink idDigest [] 5 initPup ("a.com").toList ("/x").toList navFailEnv =
      (POutcome.unresolved, { fails := 1, tabCounter := 0, openTabs := 1 }) ∧
    ((processLink idDigest [] 5 { fails := 3, tabCounter := 0, openTabs := 0 }
      ("a.com").toList ("/x").toList allOkEnv).2).fails = 0 ∧
    navAttempts navFailEnv ≤ 3 := by
  have h1 := C2_navigation_failures idDigest [] 5 initPup ("a.com").toList ("/x").toList
    navFailEnv (by decide) (by decide) (by decide)
  have h2 := C2_navigation_failures idDigest [] 5 { fails := 3, tabCounter := 0, openTabs := 0 }
    ("a.com").toList ("/x").toList allOkEnv (by decide) (by decide) (by decide)
  exact ⟨h1.1 (by decide), h2.2.1 (by decide), h1.2.2⟩

/-- C5 (counterexample): when all three tab-allocation attempts time out,
`process_link` neither returns null nor restarts anything: the
`tenacity.RetryError` escapes uncaught (outcome `tabRetryError`, distinct
from the null outcome `unresolved`) and the client state is untouched. -/
theorem C5_counterexample :
    processLink idDigest [] 1 initPup ("a.com").toList ("/x").toList tabFailEnv =
      (POutcome.tabRetryError, initPup) ∧
    POutcome.tabRetryError ≠ POutcome.unresolved ∧
    tabAttempts tabFailEnv = 3 := by
  decide

/-- C5 (amended): tab allocation compares `_open_tab_count` against the
configured maximum, but that counter is never incremented anywhere, so with
the counter below the bound allocation always proceeds directly to the
3-second-timeout `newPage` call, retried up to 3 attempts on timeout;
exhausting the retries lets `tenacity.RetryError` propagate out of
`process_link` with the state unchanged (no restart — none exists — and no
null return); and if the counter were at the bound, the wait loop (whose
body calls `aio.sleep` without awaiting it) would never terminate. -/
theorem C5_tab_allocation (digest : Str → Str) (imagePath : Str) (maxTabs : Nat)
    (s : PupState) (host path : Str) (env : NavEnv) :
    (((processLink digest imagePath maxTabs s host path env).2).tabCounter = s.tabCounter) ∧
    (classifySentinel path = false → s.tabCounter < maxTabs → tabAcquired env = false →
      processLink digest imagePath maxTabs s host path env = (POutcome.tabRetryError, s)) ∧
    (classifySentinel path = false → maxTabs ≤ s.tabCounter →
      processLink digest imagePath maxTabs s host path env = (POutcome.hang, s)) ∧
    tabAttempts env ≤ 3 := by
  refine ⟨?_, ?_, ?_, ?_⟩
  · simp only [processLink]
    split
    · rfl
    · split
      · rfl
      · split
        · rfl
        · split
          · rfl
          · rfl
  · intro hsent hcap htab
    simp [processLink, hsent, Nat.not_le.mpr hcap, htab]
  · intro hsent hcap
    simp [processLink, hsent, hcap]
  · by_cases h0 : env.tabOk 0 <;> by_cases h1 : env.tabOk 1 <;>
      simp [tabAttempts, h0, h1]

/-- C5 witness: the amended theorem at a fresh client with max 1 tab —
the counter stays 0, exhausted tab allocation yields the escaping retry
error, a client whose counter already reached the bound hangs, and at most
3 attempts are issued. -/
theorem C5_tab_allocation_witness :
    ((processLink idDigest [] 1 initPup ("a.com").toList ("/x").toList tabFailEnv).2).tabCounter
      = 0 ∧
    processLink idDigest [] 1 initPup ("a.com").toList ("/x").toList tabFailEnv =
      (POutcome.tabRetryError, initPup) ∧
    processLink idDigest [] 1 { fails := 0, tabCounter := 1, openTabs := 0 }
      ("a.com").toList ("/x").toList tabFailEnv =
      (POutcome.hang, { fails := 0, tabCounter := 1, openTabs := 0 }) ∧
    tabAttempts tabFailEnv ≤ 3 := by
  have h1 := C5_tab_allocation idDigest [] 1 initPup ("a.com").toList ("/x").toList tabFailEnv
  have h2 := C5_tab_allocation idDigest [] 1 { fails := 0, tabCounter := 1, openTabs := 0 }
    ("a.com").toList ("/x").toList tabFailEnv
  exact ⟨h1.1, h1.2.1 (by decide) (by decide) (by decide),
    h2.2.2.1 (by decide) (by decide), h1.2.2.2⟩

/-- C6 (counterexample): a `process_link` call whose navigation retries are
exhausted returns with one more browser tab open than before the call — the
tab opened for the navigation is never closed on the failure path. -/
theorem C6_counterexample :
    ((processLink idDigest [] 5 initPup ("a.com").toList ("/x").toList navFailEnv).2).openTabs
      = 1 ∧
    initPup.openTabs = 0 ∧
    ((processLink idDigest [] 5 initPup ("a.com").toList ("/x").toList navFailEnv).2).openTabs
      ≠ initPup.openTabs := by
  decide

/-- C6 (amended): the tab opened by `process_link` is closed before
returning only on the successful path; when the navigation retries are
exhausted the function returns with the tab still open (open-tab count up
by one); the classification and tab-allocation-failure paths open no tab. -/
theorem C6_tab_lifecycle (digest : Str → Str) (imagePath : Str) (maxTabs : Nat)
    (s : PupState) (host path : Str) (env : NavEnv) :
    (classifySentinel path = true →
      ((processLink digest imagePath maxTabs s host path env).2).openTabs = s.openTabs) ∧
    (classifySentinel path = false → s.tabCounter < maxTabs → tabAcquired env = true →
      navSucceeds env = true →
      ((processLink digest imagePath maxTabs s host path env).2).openTabs = s.openTabs) ∧
    (classifySentinel path = false → s.tabCounter < maxTabs → tabAcquired env = true →
      navSucceeds env = false →
      ((processLink digest imagePath maxTabs s host path env).2).openTabs = s.openTabs + 1) ∧
    (classifySentinel path = false → tabAcquired env = false →
      ((processLink digest imagePath maxTabs s host path env).2).openTabs = s.openTabs) := by
  refine ⟨?_, ?_, ?_, ?_⟩
  · intro h
    simp [processLink, h]
  · intro hsent hcap htab hnav
    simp [processLink, hsent, Nat.not_le.mpr hcap, htab, hnav]
  · intro hsent hcap htab hnav
    simp [processLink, hsent, Nat.not_le.mpr hcap, htab, hnav]
  · intro hsent htab
    simp only [processLink, hsent]
    split
    · rfl
    · split
      · rfl
      · simp [htab]

/-- C6 witness: from a fresh client, a successful resolution leaves the
open-tab count at 0, while an exhausted navigation leaves it at 1. -/
theorem C6_tab_lifecycle_witness :
    ((processLink idDigest [] 5 initPup ("a.com").toList ("/x").toList allOkEnv).2).openTabs
      = 0 ∧
    ((processLink idDigest [] 5 initPup ("a.com").toList ("/x").toList navFailEnv).2).openTabs
      = 1 := by
  have h1 := C6_tab_lifecycle idDigest [] 5 initPup ("a.com").toList ("/x").toList allOkEnv
  have h2 := C6_tab_lifecycle idDigest [] 5 initPup ("a.com").toList ("/x").toList navFailEnv
  exact ⟨h1.2.1 (by decide) (by decide) (by decide) (by decide),
    h2.2.2.1 (by decide) (by decide) (by decide) (by decide)⟩

/-! ## Claim C7 (redirect chain) -/

/-- Rendering a queue always begins with its first element. -/
lemma renderChain_starts_with_head (url x : Str) (rest : List Str) :
    x <+: renderChain url (x :: rest) := by
  simp only [renderChain]
  split
  · exact List.prefix_refl x
  · exact (List.prefix_append x _).trans (List.prefix_append _ _)

/-- When no element before the terminal one matches the endpoint URL and
the terminal element does, the rendered chain ends with the terminal
element. -/
lemma renderChain_concat_suffix (url ep : Str) :
    ∀ (q : List Str), (∀ x ∈ q, substrOf x url = false) → substrOf ep url = true →
      ep <:+ renderChain url (q ++ [ep]) := by
  intro q
  induction q with
  | nil =>
    intro _ hep
    simp [renderChain, hep]
  | cons x t ih =>
    intro hall hep
    have hx : substrOf x url = false := hall x (by simp)
    have ht : ∀ y ∈ t, substrOf y url = false := fun y hy => hall y (by simp [hy])
    simp only [List.cons_append, renderChain, hx, Bool.false_eq_true, if_false]
    exact (ih ht hep).trans (List.suffix_append _ _)

/-- The normalized queue always begins (as a string prefix of the rendered
chain) with the original host+path. -/
lemma buildChain_starts_with_orig (url origHost origPath endHost endPath : Str)
    (q : List Str) :
    (origHost ++ origPath) <+: buildChain url origHost origPath endHost endPath q := by
  unfold buildChain normalizeQueue
  set hp := origHost ++ origPath with hhp
  set ep := endHost ++ endPath with hep
  set q1 := if q.contains origHost then q.tail else q with hq1
  by_cases hc : (hp :: q1).contains endHost
  · simp only [hc, if_true]
    match q1 with
    | [] =>
      have hhe : hp = endHost := by
        have := hc
        simp [List.contains_cons] at this
        exact this.symm
      have h1 : hp <+: ep := by
        rw [hep, ← hhe]
        exact List.prefix_append hp endPath
      have h2 : ep <+: renderChain url ([hp].dropLast ++ [ep]) := by
        rw [List.dropLast_single]
        exact renderChain_starts_with_head url ep []
      exact h1.trans h2
    | b :: l =>
      rw [List.dropLast_cons₂, List.cons_append]
      exact renderChain_starts_with_head url hp _
  · simp only [hc, if_false, List.cons_append]
    exact renderChain_starts_with_head url hp _

/-- C7 (confirmed): the normalized redirect queue begins with the original
host+path in the sense that the rendered chain has it as a prefix, and ends
with the endpoint host+path; when no intermediate element matches the
endpoint URL and the endpoint host+path is a substring of it, the rendered
chain ends with the endpoint host+path; and the concrete scenario of the
claim — original `a.com/start`, observed hosts `[b.com, c.com]`, endpoint
`c.com/end` — renders exactly `a.com/start -> b.com -> c.com/end`. -/
theorem C7_redirect_chain (url origHost origPath endHost endPath : Str) (q : List Str) :
    ((origHost ++ origPath) <+: buildChain url origHost origPath endHost endPath q) ∧
    ((normalizeQueue origHost origPath endHost endPath q).getLast? =
      some (endHost ++ endPath)) ∧
    ((∀ x ∈ (normalizeQueue origHost origPath endHost endPath q).dropLast,
        substrOf x url = false) →
      substrOf (endHost ++ endPath) url = true →
      (endHost ++ endPath) <:+ buildChain url origHost origPath endHost endPath q) ∧
    buildChain ("http://c.com/end").toList ("a.com").toList ("/start").toList
      ("c.com").toList ("/end").toList [("b.com").toList, ("c.com").toList] =
      ("a.com/start -> b.com -> c.com/end").toList := by
  refine ⟨buildChain_starts_with_orig url origHost origPath endHost endPath q, ?_, ?_, ?_⟩
  · simp [normalizeQueue]
  · intro hall hep
    have hdl : (normalizeQueue origHost origPath endHost endPath q).dropLast =
        (if ((origHost ++ origPath) :: (if q.contains origHost then q.tail else q)).contains
            endHost then
          ((origHost ++ origPath) :: (if q.contains origHost then q.tail else q)).dropLast
        else ((origHost ++ origPath) :: (if q.contains origHost then q.tail else q))) := by
      simp [normalizeQueue]
    rw [hdl] at hall
    unfold buildChain normalizeQueue
    exact renderChain_concat_suffix url (endHost ++ endPath) _ hall hep
  · decide

/-- C7 witness: the suffix clause of the theorem instantiated at the
concrete scenario of the claim, after checking its side conditions. -/
theorem C7_redirect_chain_witness :
    ("c.com/end").toList <:+ buildChain ("http://c.com/end").toList ("a.com").toList
      ("/start").toList ("c.com").toList ("/end").toList
      [("b.com").toList, ("c.com").toList] := by
  have h := (C7_redirect_chain ("http://c.com/end").toList ("a.com").toList
    ("/start").toList ("c.com").toList ("/end").toList
    [("b.com").toList, ("c.com").toList]).2.2.1 (by decide) (by decide)
  simpa using h

/-! ## Claim C8 (link extraction) -/

/-- A text that begins with the eight characters `https://` is recognized
with that scheme. -/
lemma linkScheme_https (rest : Str) :
    linkScheme (("https://").toList ++ rest) = some (("https://").toList) := by
  simp [linkScheme, List.isPrefixOf]

/-- A text that begins with the seven characters `http://` (and hence not
with `https://`) is recognized with that scheme. -/
lemma linkScheme_http (rest : Str) :
    linkScheme (("http://").toList ++ rest) = some (("http://").toList) := by
  simp [linkScheme, List.isPrefixOf]

/-- Characters other than a left angle bracket are all taken by the body
scan, which stops exactly at the bracket. -/
lemma takeWhile_body (body r : Str) (h : ∀ c ∈ body, c ≠ '<') :
    (body ++ '<' :: r).takeWhile (· ≠ '<') = body := by
  induction body with
  | nil => simp
  | cons c t ih =>
    have hc : c ≠ '<' := h c (by simp)
    have ht : ∀ x ∈ t, x ≠ '<' := fun x hx => h x (by simp [hx])
    rw [List.cons_append, List.takeWhile_cons, if_pos (decide_eq_true hc), ih ht]

/-- A link whose body contains no angle bracket, placed at the start of the
text and terminated by a line break, is extracted and stripped. -/
lemma findLinkBr_at_start (p body rest : Str)
    (hp : linkScheme (p ++ (body ++ (("<br>").toList ++ rest))) = some p)
    (hbody : body ≠ []) (hlt : ∀ c ∈ body, c ≠ '<') :
    findLinkBr (p ++ body ++ ("<br>").toList ++ rest) = some (pyStrip (p ++ body)) := by
  have hsplit : p ++ body ++ ("<br>").toList ++ rest =
      p ++ (body ++ (("<br>").toList ++ rest)) := by
    simp [List.append_assoc]
  rw [hsplit]
  simp only [findLinkBr, hp]
  rw [List.drop_left]
  have hbr : ("<br>").toList ++ rest = '<' :: (("br>").toList ++ rest) := by
    simp
  rw [hbr, takeWhile_body body _ hlt]
  rw [List.drop_left]
  have hpref : (("<br>").toList).isPrefixOf ('<' :: (("br>").toList ++ rest)) = true := by
    simp [List.isPrefixOf]
  simp [hbody, hpref]

/-- C8 (counterexample): the message `see https://a.com/x<br> ok` contains
a well-formed line-break-terminated link (the spec-worded anywhere-search
finds it), yet `find_link_br` — whose pattern is anchored at the start of
the text and is searched without a multiline flag — returns `None` and the
server ignores the message. -/
theorem C8_counterexample :
    specFindLinkAnywhere (("see https://a.com/x<br> ok").toList) =
      some (("https://a.com/x").toList) ∧
    findLinkBr (("see https://a.com/x<br> ok").toList) = none ∧
    serverStep (("see https://a.com/x<br> ok").toList) = ServerAction.ignore := by
  decide

/-- C8 (amended): the pipeline extracts a well-formed `http(s)://...` link
terminated by a line break only when it sits at the very start of the
message text (the pattern is anchored there); a message that does not begin
with the scheme yields no link and is ignored with no reply, and a message
that begins with scheme, a bracket-free non-empty body and `<br>` yields
the stripped link. -/
theorem C8_link_extraction (t body rest : Str) :
    (linkScheme t = none → findLinkBr t = none ∧ serverStep t = ServerAction.ignore) ∧
    (body ≠ [] → (∀ c ∈ body, c ≠ '<') →
      findLinkBr (("https://").toList ++ body ++ ("<br>").toList ++ rest) =
        some (pyStrip (("https://").toList ++ body)) ∧
      findLinkBr (("http://").toList ++ body ++ ("<br>").toList ++ rest) =
        some (pyStrip (("http://").toList ++ body))) := by
  constructor
  · intro h
    constructor
    · simp [findLinkBr, h]
    · simp [serverStep, findLinkBr, h]
  · intro hbody hlt
    constructor
    · exact findLinkBr_at_start _ body rest (linkScheme_https _) hbody hlt
    · exact findLinkBr_at_start _ body rest (linkScheme_http _) hbody hlt

/-- C8 witness: the amended theorem instantiated at a message with no
leading scheme (ignored) and at the start-anchored message
`https://a.com/x<br> ok` (link extracted). -/
theorem C8_link_extraction_witness :
    (findLinkBr (("see this link").toList) = none ∧
      serverStep (("see this link").toList) = ServerAction.ignore) ∧
    findLinkBr (("https://").toList ++ ("a.com/x").toList ++ ("<br>").toList ++
        (" ok").toList) =
      some (pyStrip (("https://").toList ++ ("a.com/x").toList)) := by
  have h1 := (C8_link_extraction (("see this link").toList) ("a.com/x").toList
    (" ok").toList).1 (by decide)
  have h2 := ((C8_link_extraction (("see this link").toList) ("a.com/x").toList
    (" ok").toList).2 (by decide) (by decide)).1
  exact ⟨h1, h2⟩

end Visionary
